import Mathlib

set_option autoImplicit false

/-!
Verification of the priority-aware thread-pool scheduler implemented in
src/task/thread_pool/thread_group.cc (namespace base::internal, class
ThreadGroup).  The ThreadGroup member functions below are translated
directly from that file; the collaborating types that the fragment only
uses (TaskPriority, TaskSourceSortKey, PriorityQueue, TaskSource,
TaskTracker) are modelled from the specification, as marked on each
definition.
-/

/-- Modelled from the spec: the ordered priority enumeration of task sources
(task_traits.h is not part of the source fragment), "lowest called
BEST_EFFORT, then USER_VISIBLE, USER_BLOCKING as two foreground tiers". -/
inductive TaskPriority where
  | BEST_EFFORT
  | USER_VISIBLE
  | USER_BLOCKING
  deriving DecidableEq, Repr

/-- Modelled from the spec: the numeric value underlying the ordered priority
enumeration, used for comparisons such as line 368 of thread_group.cc. -/
def TaskPriority.toNat : TaskPriority → Nat
  | .BEST_EFFORT => 0
  | .USER_VISIBLE => 1
  | .USER_BLOCKING => 2

/-- Modelled from the spec: TaskPriority::HIGHEST (used at line 195 of
thread_group.cc) is the top tier of the enumeration, USER_BLOCKING. -/
def TaskPriority.HIGHEST : TaskPriority := TaskPriority.USER_BLOCKING

/-- Modelled from the spec: a task source is "the unit of schedulable work";
for the scheduler's queue operations only its identity matters, so it is
modelled as an identifier.  Its mutable attributes (remaining concurrency,
run status, refreshed sort key) are supplied by a SchedulerEnv. -/
structure TaskSource where
  id : Nat
  deriving DecidableEq, Repr

/-- Modelled from the spec: the sort key is the "value type
(priority, worker_count)" computed from a task source's state. -/
structure TaskSourceSortKey where
  priority : TaskPriority
  worker_count : Nat
  deriving DecidableEq, Repr

/-- Modelled from the spec: the strict "sorts before" relation on sort keys:
"higher priority sorts first; within equal priority, a task source already
running on fewer workers sorts first". -/
def sortKeyGT (a b : TaskSourceSortKey) : Bool :=
  decide (b.priority.toNat < a.priority.toNat ∨
    (a.priority = b.priority ∧ a.worker_count < b.worker_count))

/-- Modelled from the spec: an element of the priority queue, a registered
task source together with the sort key it was inserted or re-homed with. -/
structure QueueEntry where
  task_source : TaskSource
  sort_key : TaskSourceSortKey
  deriving DecidableEq, Repr

/-- Modelled from the spec: the priority queue is "an ordered container keyed
by Sort Key, supporting duplicate priorities"; it is modelled as the list of
its entries in pop order (maximal sort key first). -/
abbrev PriorityQueue := List QueueEntry

/-- Modelled from the spec: Push inserts keyed by sort key; the new entry
goes in front of the first strictly-smaller key and after equal keys, so
the head of the list is always a maximal element, as the queue contract
("the top element returned by peek always has the maximal sort key")
requires. -/
def PriorityQueue.Push : PriorityQueue → QueueEntry → PriorityQueue
  | [], e => [e]
  | f :: rest, e =>
    if sortKeyGT e.sort_key f.sort_key then e :: f :: rest
    else f :: PriorityQueue.Push rest e

/-- Modelled from the spec: IsEmpty. -/
def PriorityQueue.IsEmpty (q : PriorityQueue) : Bool := q.isEmpty

/-- Modelled from the spec: PeekSortKey returns the maximal-sort-key
element's key without removing it.  Calling it on an empty queue is a
contract violation (fatal in the source), so the value returned for [] is
an arbitrary default that no translated caller relies on. -/
def PriorityQueue.PeekSortKey : PriorityQueue → TaskSourceSortKey
  | [] => ⟨.BEST_EFFORT, 0⟩
  | e :: _ => e.sort_key

/-- Modelled from the spec: PeekTaskSource returns the maximal-sort-key
element without removing it; the value for an empty queue is an arbitrary
default (contract violation in the source). -/
def PriorityQueue.PeekTaskSource : PriorityQueue → TaskSource
  | [] => ⟨0⟩
  | e :: _ => e.task_source

/-- Modelled from the spec: GetNumTaskSourcesWithPriority p "returns a live
count" of contained task sources whose sort-key priority is p. -/
def PriorityQueue.GetNumTaskSourcesWithPriority (q : PriorityQueue)
    (p : TaskPriority) : Nat :=
  q.countP (fun e => decide (e.sort_key.priority = p))

/-- Modelled from the spec: RemoveTaskSource extracts a specific contained
element (each task source resides in at most one queue, at most once). -/
def PriorityQueue.RemoveTaskSource : PriorityQueue → TaskSource → PriorityQueue
  | [], _ => []
  | e :: rest, ts =>
    if e.task_source = ts then rest
    else e :: PriorityQueue.RemoveTaskSource rest ts

/-- Modelled from the spec: UpdateSortKey "re-homes an already-contained
element after its ranking inputs changed"; if the task source is not
contained (its queue handle is invalid) the call is a no-op. -/
def PriorityQueue.UpdateSortKey (q : PriorityQueue) (ts : TaskSource)
    (k : TaskSourceSortKey) : PriorityQueue :=
  if q.any (fun e => decide (e.task_source = ts)) then
    (q.RemoveTaskSource ts).Push ⟨ts, k⟩
  else q

/-- From thread_group.cc line 28: constexpr size_t kMaxNumberOfWorkers = 256. -/
def kMaxNumberOfWorkers : Nat := 256

/-- From thread_group.cc lines 336-341: the first loop of
HandoffNonUserBlockingTaskSourcesToOtherThreadGroup pops the contiguous
USER_BLOCKING prefix of the source queue and pushes each popped task source
with its peeked sort key into new_priority_queue.  Returns
(new_priority_queue, what is left of the source queue). -/
def HandoffDrainLoop : PriorityQueue → PriorityQueue → PriorityQueue × PriorityQueue
  | [], new_priority_queue => (new_priority_queue, [])
  | e :: rest, new_priority_queue =>
    if e.sort_key.priority = TaskPriority.USER_BLOCKING then
      HandoffDrainLoop rest (new_priority_queue.Push e)
    else (new_priority_queue, e :: rest)

/-- From thread_group.cc lines 347-351: the second loop pops every element of
new_priority_queue and pushes it, with its peeked sort key, into the
destination group's queue. -/
def HandoffPushLoop : PriorityQueue → PriorityQueue → PriorityQueue
  | [], dest => dest
  | e :: rest, dest => HandoffPushLoop rest (dest.Push e)

/-- From thread_group.cc lines 330-353: drain the USER_BLOCKING prefix into
new_priority_queue, swap it with the source queue (so the source group keeps
the USER_BLOCKING prefix and new_priority_queue now holds the remainder),
then push the remainder into the destination group's queue.  The result is
(source queue after, destination queue after). -/
def HandoffNonUserBlockingTaskSourcesToOtherThreadGroup
    (source_queue dest_queue : PriorityQueue) : PriorityQueue × PriorityQueue :=
  let drained := HandoffDrainLoop source_queue []
  (drained.1, HandoffPushLoop drained.2 dest_queue)

/-- Modelled from the spec: the lock-free published snapshot
max_allowed_sort_key is a (priority, worker_count) pair (the YieldSortKey
struct of thread_group.h, which is not part of the source fragment). -/
structure YieldSortKey where
  priority : TaskPriority
  worker_count : Nat
  deriving DecidableEq, Repr

/-- Modelled from the spec: kMaxYieldSortKey (declared in thread_group.h) is
the "distinguished maximal sort key [that] represents no ceiling /
always-allowed"; consistently with ShouldYield, which never yields when the
published priority is BEST_EFFORT, it is the pair (BEST_EFFORT, 0). -/
def kMaxYieldSortKey : YieldSortKey := ⟨.BEST_EFFORT, 0⟩

/-- From thread_group.cc lines 355-388: ShouldYield.  The atomic
max_allowed_sort_key_ is accessed twice off the lock: the relaxed load at
line 363 and the exchange at lines 382-384; between the two, other threads
may store a different value, so the two observed values are separate
parameters loaded_key and exchanged_key (in a race-free run they are
equal).  canRunPriority is the tracker's CanRunPriority. -/
def ShouldYield (canRunPriority : TaskPriority → Bool)
    (loaded_key exchanged_key : YieldSortKey)
    (sort_key : TaskSourceSortKey) : Bool :=
  if canRunPriority sort_key.priority = false then true
  else if loaded_key.priority.toNat < sort_key.priority.toNat ∨
      loaded_key.priority = TaskPriority.BEST_EFFORT then false
  else if sort_key.priority = loaded_key.priority ∧
      sort_key.worker_count ≤ loaded_key.worker_count + 1 then false
  else decide (exchanged_key.priority ≠ TaskPriority.BEST_EFFORT)

/-- C2 counterexample: with the tracker allowing everything and the published
key being (USER_BLOCKING, 0), ShouldYield called with sort key
(USER_BLOCKING, 1) returns false — the running task with worker count 1
does not yield to the competing source with worker count 0 (worker_count
1 <= 0 + 1 at line 376), contrary to the claimed true; the reverse
direction returns false as well. -/
theorem shouldYield_counterexample_C2 :
    ShouldYield (fun _ => true) ⟨.USER_BLOCKING, 0⟩ ⟨.USER_BLOCKING, 0⟩
      ⟨.USER_BLOCKING, 1⟩ = false ∧
    ShouldYield (fun _ => true) ⟨.USER_BLOCKING, 1⟩ ⟨.USER_BLOCKING, 1⟩
      ⟨.USER_BLOCKING, 0⟩ = false := by
  decide

/-- C2 (amended): for two task sources of equal non-best-effort priority with
worker counts 0 and 1, and the tracker allowing the priority, neither
direction yields: ShouldYield with sort key of worker count 1 against a
published key of worker count 0 returns false, and vice versa.  At equal
priority a task yields only when its worker count exceeds the published
worker count by more than one: with worker count 2 against a published
worker count of 0 it returns true. -/
theorem shouldYield_equal_priority_amended
    (canRun : TaskPriority → Bool) (p : TaskPriority)
    (exchanged_key : YieldSortKey)
    (hrun : canRun p = true) (hp : p ≠ TaskPriority.BEST_EFFORT)
    (hex : exchanged_key.priority = p) :
    ShouldYield canRun ⟨p, 0⟩ exchanged_key ⟨p, 1⟩ = false ∧
    ShouldYield canRun ⟨p, 1⟩ exchanged_key ⟨p, 0⟩ = false ∧
    ShouldYield canRun ⟨p, 0⟩ exchanged_key ⟨p, 2⟩ = true := by
  refine ⟨?_, ?_, ?_⟩ <;>
    simp [ShouldYield, hrun, hp, hex]

/-- C2 (amended) witness: the amended yield theorem at USER_BLOCKING with a
tracker that allows everything. -/
theorem shouldYield_equal_priority_amended_witness :
    ShouldYield (fun _ => true) ⟨.USER_BLOCKING, 0⟩ ⟨.USER_BLOCKING, 0⟩
      ⟨.USER_BLOCKING, 1⟩ = false ∧
    ShouldYield (fun _ => true) ⟨.USER_BLOCKING, 1⟩ ⟨.USER_BLOCKING, 0⟩
      ⟨.USER_BLOCKING, 0⟩ = false ∧
    ShouldYield (fun _ => true) ⟨.USER_BLOCKING, 0⟩ ⟨.USER_BLOCKING, 0⟩
      ⟨.USER_BLOCKING, 2⟩ = true :=
  shouldYield_equal_priority_amended (fun _ => true) .USER_BLOCKING
    ⟨.USER_BLOCKING, 0⟩ rfl (by decide) rfl

/-- C3: yield pressure from BEST_EFFORT work never causes a yield.  Provided
the tracker allows the calling task's own priority (otherwise ShouldYield
returns true at line 359, before the published key is even loaded): if the
loaded max_allowed_sort_key has priority BEST_EFFORT the function returns
false without attempting the exchange, and whenever the function returns
true through the exchange path, the previously published (exchanged-out)
priority was not BEST_EFFORT. -/
theorem shouldYield_never_true_from_best_effort
    (canRun : TaskPriority → Bool) (loaded_key exchanged_key : YieldSortKey)
    (sort_key : TaskSourceSortKey)
    (hrun : canRun sort_key.priority = true) :
    (loaded_key.priority = TaskPriority.BEST_EFFORT →
      ShouldYield canRun loaded_key exchanged_key sort_key = false) ∧
    (ShouldYield canRun loaded_key exchanged_key sort_key = true →
      exchanged_key.priority ≠ TaskPriority.BEST_EFFORT) := by
  constructor
  · intro hbe
    simp [ShouldYield, hrun, hbe]
  · intro htrue hbe
    have hfalse : ShouldYield canRun loaded_key exchanged_key sort_key = false := by
      unfold ShouldYield
      rw [hrun, hbe]
      simp
    rw [htrue] at hfalse
    exact Bool.noConfusion hfalse

/-- C3 witness: at the concrete input where the published key is
(BEST_EFFORT, 0) and the caller runs at (USER_BLOCKING, 5) with the
tracker allowing everything, ShouldYield returns false. -/
theorem shouldYield_never_true_from_best_effort_witness :
    ShouldYield (fun _ => true) ⟨.BEST_EFFORT, 0⟩ ⟨.BEST_EFFORT, 0⟩
      ⟨.USER_BLOCKING, 5⟩ = false :=
  (shouldYield_never_true_from_best_effort (fun _ => true) ⟨.BEST_EFFORT, 0⟩
    ⟨.BEST_EFFORT, 0⟩ ⟨.USER_BLOCKING, 5⟩ rfl).1 rfl

/-- C1 counterexample: with source queue popping A(USER_BLOCKING,0),
B(USER_BLOCKING,1), C(BEST_EFFORT,0) and an empty destination queue, the
handoff keeps A and B in the source group and moves C to the destination
group — the opposite of the claimed direction: A is not in the destination
queue and C is not in the source queue. -/
theorem handoff_counterexample_C1 :
    HandoffNonUserBlockingTaskSourcesToOtherThreadGroup
        [⟨⟨1⟩, ⟨.USER_BLOCKING, 0⟩⟩, ⟨⟨2⟩, ⟨.USER_BLOCKING, 1⟩⟩,
         ⟨⟨3⟩, ⟨.BEST_EFFORT, 0⟩⟩] [] =
      ([⟨⟨1⟩, ⟨.USER_BLOCKING, 0⟩⟩, ⟨⟨2⟩, ⟨.USER_BLOCKING, 1⟩⟩],
       [⟨⟨3⟩, ⟨.BEST_EFFORT, 0⟩⟩]) ∧
    (⟨⟨1⟩, ⟨.USER_BLOCKING, 0⟩⟩ : QueueEntry) ∉
      (HandoffNonUserBlockingTaskSourcesToOtherThreadGroup
        [⟨⟨1⟩, ⟨.USER_BLOCKING, 0⟩⟩, ⟨⟨2⟩, ⟨.USER_BLOCKING, 1⟩⟩,
         ⟨⟨3⟩, ⟨.BEST_EFFORT, 0⟩⟩] []).2 ∧
    (⟨⟨3⟩, ⟨.BEST_EFFORT, 0⟩⟩ : QueueEntry) ∉
      (HandoffNonUserBlockingTaskSourcesToOtherThreadGroup
        [⟨⟨1⟩, ⟨.USER_BLOCKING, 0⟩⟩, ⟨⟨2⟩, ⟨.USER_BLOCKING, 1⟩⟩,
         ⟨⟨3⟩, ⟨.BEST_EFFORT, 0⟩⟩] []).1 := by
  decide

/-- C1 (amended): for a source group whose queue pops A(USER_BLOCKING),
B(USER_BLOCKING), C(BEST_EFFORT) in that order, the handoff keeps A and B in
the source group's queue, with their relative order preserved, and moves C
into the destination group's queue. -/
theorem handoff_keeps_user_blocking
    (A B C : TaskSource) (kA kB kC : TaskSourceSortKey) (dest : PriorityQueue)
    (hA : kA.priority = .USER_BLOCKING) (hB : kB.priority = .USER_BLOCKING)
    (hC : kC.priority = .BEST_EFFORT)
    (horder : sortKeyGT kB kA = false) :
    HandoffNonUserBlockingTaskSourcesToOtherThreadGroup
        [⟨A, kA⟩, ⟨B, kB⟩, ⟨C, kC⟩] dest =
      ([⟨A, kA⟩, ⟨B, kB⟩], dest.Push ⟨C, kC⟩) := by
  simp [HandoffNonUserBlockingTaskSourcesToOtherThreadGroup, HandoffDrainLoop,
    HandoffPushLoop, PriorityQueue.Push, hA, hB, hC, horder]

/-- C1 (amended) witness: the generic handoff theorem applied to the
concrete scenario of the counterexample. -/
theorem handoff_keeps_user_blocking_witness :
    HandoffNonUserBlockingTaskSourcesToOtherThreadGroup
        [⟨⟨1⟩, ⟨.USER_BLOCKING, 0⟩⟩, ⟨⟨2⟩, ⟨.USER_BLOCKING, 1⟩⟩,
         ⟨⟨3⟩, ⟨.BEST_EFFORT, 0⟩⟩] [] =
      ([⟨⟨1⟩, ⟨.USER_BLOCKING, 0⟩⟩, ⟨⟨2⟩, ⟨.USER_BLOCKING, 1⟩⟩],
       PriorityQueue.Push [] ⟨⟨3⟩, ⟨.BEST_EFFORT, 0⟩⟩) :=
  handoff_keeps_user_blocking ⟨1⟩ ⟨2⟩ ⟨3⟩ ⟨.USER_BLOCKING, 0⟩
    ⟨.USER_BLOCKING, 1⟩ ⟨.BEST_EFFORT, 0⟩ [] rfl rfl rfl (by decide)

/-- Modelled from the spec: the run_status tri-state of a task source,
"computed on demand from tracker policy" by WillRunTask. -/
inductive RunStatus where
  | kDisallowed
  | kAllowedNotSaturated
  | kAllowedSaturated
  deriving DecidableEq, Repr

/-- Modelled from the spec: the external collaborators consumed by the
scheduler and the task-source attributes computed outside the fragment.
CanRunPriority and RegisterTaskSource are the Task Tracker interface
(RegisterTaskSource mints "an additional registration for the *same* task
source", so only whether it is granted matters); WillRunTask computes the
run_status tri-state; GetSortKey returns the task source's current
(refreshed) sort key; GetRemainingConcurrency reports how many additional
workers the task source can host. -/
structure SchedulerEnv where
  CanRunPriority : TaskPriority → Bool
  RegisterTaskSource : TaskSource → Bool
  WillRunTask : TaskSource → RunStatus
  GetSortKey : TaskSource → TaskSourceSortKey
  GetRemainingConcurrency : TaskSource → Nat

/-- The outcome of TakeRegisteredTaskSource: the registration returned to the
calling worker (none when the worker gets nothing), the priority queue
afterwards, and the task sources the executor was asked to release. -/
structure TakeResult where
  returned : Option TaskSource
  queue : PriorityQueue
  released : List TaskSource
  deriving DecidableEq, Repr

/-- From thread_group.cc lines 263-293: TakeRegisteredTaskSource.  The
DCHECK forbids an empty queue, so the value for [] is an arbitrary default.
If the top task source's run status is kDisallowed it is popped, scheduled
for release on the executor, and nullptr is returned; if kAllowedSaturated
it is popped and returned; otherwise the tracker is asked for an additional
registration of the same task source: if refused, pop and return, and if
granted, swap the queue's top registration for the new one, refresh its
sort key in place with UpdateSortKey, and return the swapped-out
registration (a registration of the same task source). -/
def TakeRegisteredTaskSource (env : SchedulerEnv) :
    PriorityQueue → TakeResult
  | [] => ⟨none, [], []⟩
  | top :: rest =>
    match env.WillRunTask top.task_source with
    | .kDisallowed => ⟨none, rest, [top.task_source]⟩
    | .kAllowedSaturated => ⟨some top.task_source, rest, []⟩
    | .kAllowedNotSaturated =>
      if env.RegisterTaskSource top.task_source = false then
        ⟨some top.task_source, rest, []⟩
      else
        ⟨some top.task_source,
         PriorityQueue.UpdateSortKey (top :: rest) top.task_source
           (env.GetSortKey top.task_source), []⟩

/-- Follows the spec's words (thread_group.cc lines 279-284 describe it): the
canonical sequence for a non-saturated top task source is to "pop the task
source to return, call RegisterTaskSource() to get an additional
RegisteredTaskSource, and reenqueue that task source if valid" with its
refreshed sort key. -/
def canonicalTakeNotSaturated (env : SchedulerEnv) :
    PriorityQueue → TakeResult
  | [] => ⟨none, [], []⟩
  | top :: rest =>
    if env.RegisterTaskSource top.task_source then
      ⟨some top.task_source,
       PriorityQueue.Push rest ⟨top.task_source, env.GetSortKey top.task_source⟩,
       []⟩
    else ⟨some top.task_source, rest, []⟩

/-- C4: whenever the top task source's run status is kDisallowed,
TakeRegisteredTaskSource pops it from the queue, schedules it for release on
the executor, and returns nothing; and a task source whose run status is
kDisallowed is never returned to the calling worker. -/
theorem takeRegisteredTaskSource_disallowed
    (env : SchedulerEnv) (top : QueueEntry) (rest : PriorityQueue) :
    (env.WillRunTask top.task_source = RunStatus.kDisallowed →
      TakeRegisteredTaskSource env (top :: rest) =
        ⟨none, rest, [top.task_source]⟩) ∧
    (∀ ts : TaskSource,
      (TakeRegisteredTaskSource env (top :: rest)).returned = some ts →
      env.WillRunTask ts ≠ RunStatus.kDisallowed) := by
  constructor
  · intro hdis
    simp [TakeRegisteredTaskSource, hdis]
  · intro ts hret
    cases hstatus : env.WillRunTask top.task_source with
    | kDisallowed =>
      simp [TakeRegisteredTaskSource, hstatus] at hret
    | kAllowedSaturated =>
      simp [TakeRegisteredTaskSource, hstatus] at hret
      rw [← hret, hstatus]
      exact fun h => RunStatus.noConfusion h
    | kAllowedNotSaturated =>
      by_cases hreg : env.RegisterTaskSource top.task_source = false <;>
        simp [TakeRegisteredTaskSource, hstatus, hreg] at hret <;>
        rw [← hret, hstatus] <;>
        exact fun h => RunStatus.noConfusion h

/-- C4 witness: a concrete one-element queue whose task source is disallowed
is popped and released, with nothing returned. -/
theorem takeRegisteredTaskSource_disallowed_witness :
    TakeRegisteredTaskSource
        ⟨fun _ => true, fun _ => true, fun _ => RunStatus.kDisallowed,
         fun _ => ⟨.USER_BLOCKING, 0⟩, fun _ => 0⟩
        [⟨⟨7⟩, ⟨.USER_BLOCKING, 0⟩⟩] =
      ⟨none, [], [⟨7⟩]⟩ :=
  (takeRegisteredTaskSource_disallowed
    ⟨fun _ => true, fun _ => true, fun _ => RunStatus.kDisallowed,
     fun _ => ⟨.USER_BLOCKING, 0⟩, fun _ => 0⟩
    ⟨⟨7⟩, ⟨.USER_BLOCKING, 0⟩⟩ []).1 rfl

/-- C9: when the top task source's run status is kAllowedNotSaturated, the
swap-in-place implementation of TakeRegisteredTaskSource produces exactly
the queue contents and returned registration of the canonical
pop + RegisterTaskSource + re-push sequence, in both the granted and the
refused case. -/
theorem takeRegisteredTaskSource_canonical_equiv
    (env : SchedulerEnv) (top : QueueEntry) (rest : PriorityQueue)
    (hstatus : env.WillRunTask top.task_source = RunStatus.kAllowedNotSaturated) :
    TakeRegisteredTaskSource env (top :: rest) =
      canonicalTakeNotSaturated env (top :: rest) := by
  by_cases hreg : env.RegisterTaskSource top.task_source = false
  · simp [TakeRegisteredTaskSource, canonicalTakeNotSaturated, hstatus, hreg]
  · simp only [Bool.not_eq_false] at hreg
    simp [TakeRegisteredTaskSource, canonicalTakeNotSaturated, hstatus, hreg,
      PriorityQueue.UpdateSortKey, PriorityQueue.RemoveTaskSource]

/-- C9 witness: the equivalence applied to a concrete two-element queue with
a tracker that grants the additional registration; the top entry is
re-homed with its refreshed (demoted) sort key. -/
theorem takeRegisteredTaskSource_canonical_equiv_witness :
    TakeRegisteredTaskSource
        ⟨fun _ => true, fun _ => true, fun _ => RunStatus.kAllowedNotSaturated,
         fun ts => ⟨.USER_BLOCKING, ts.id⟩, fun _ => 0⟩
        [⟨⟨1⟩, ⟨.USER_BLOCKING, 0⟩⟩, ⟨⟨2⟩, ⟨.USER_BLOCKING, 0⟩⟩] =
      canonicalTakeNotSaturated
        ⟨fun _ => true, fun _ => true, fun _ => RunStatus.kAllowedNotSaturated,
         fun ts => ⟨.USER_BLOCKING, ts.id⟩, fun _ => 0⟩
        [⟨⟨1⟩, ⟨.USER_BLOCKING, 0⟩⟩, ⟨⟨2⟩, ⟨.USER_BLOCKING, 0⟩⟩] :=
  takeRegisteredTaskSource_canonical_equiv
    ⟨fun _ => true, fun _ => true, fun _ => RunStatus.kAllowedNotSaturated,
     fun ts => ⟨.USER_BLOCKING, ts.id⟩, fun _ => 0⟩
    ⟨⟨1⟩, ⟨.USER_BLOCKING, 0⟩⟩ [⟨⟨2⟩, ⟨.USER_BLOCKING, 0⟩⟩] rfl

/-- The ThreadGroup state guarded by its mutex, as listed in the spec's data
model: the priority queue, the concurrency ceilings max_tasks_ and
max_best_effort_tasks_, the live counters num_running_tasks_ and
num_running_best_effort_tasks_, the unresolved may-block counters, and the
lock-free published snapshot max_allowed_sort_key_. -/
structure ThreadGroupState where
  priority_queue : PriorityQueue
  max_tasks : Nat
  max_best_effort_tasks : Nat
  num_running_tasks : Nat
  num_running_best_effort_tasks : Nat
  num_unresolved_may_block : Nat
  num_unresolved_best_effort_may_block : Nat
  max_allowed_sort_key : YieldSortKey
  deriving DecidableEq, Repr

/-- From thread_group.cc lines 164-183:
GetNumAdditionalWorkersForBestEffortTaskSourcesLockRequired.  num_queued >= 1
holds whenever the subtraction is reached, so Nat subtraction agrees with the
size_t arithmetic of the source. -/
def GetNumAdditionalWorkersForBestEffortTaskSourcesLockRequired
    (env : SchedulerEnv) (q : PriorityQueue) : Nat :=
  let num_queued := q.GetNumTaskSourcesWithPriority TaskPriority.BEST_EFFORT
  if num_queued = 0 ∨ env.CanRunPriority TaskPriority.BEST_EFFORT = false then 0
  else if q.PeekSortKey.priority = TaskPriority.BEST_EFFORT then
    max 1 (num_queued + env.GetRemainingConcurrency q.PeekTaskSource - 1)
  else num_queued

/-- From thread_group.cc lines 185-208:
GetNumAdditionalWorkersForForegroundTaskSourcesLockRequired. -/
def GetNumAdditionalWorkersForForegroundTaskSourcesLockRequired
    (env : SchedulerEnv) (q : PriorityQueue) : Nat :=
  let num_queued := q.GetNumTaskSourcesWithPriority TaskPriority.USER_VISIBLE +
    q.GetNumTaskSourcesWithPriority TaskPriority.USER_BLOCKING
  if num_queued = 0 ∨ env.CanRunPriority TaskPriority.HIGHEST = false then 0
  else if q.PeekSortKey.priority = TaskPriority.USER_VISIBLE ∨
      q.PeekSortKey.priority = TaskPriority.USER_BLOCKING then
    max 1 (num_queued + env.GetRemainingConcurrency q.PeekTaskSource - 1)
  else num_queued

/-- From thread_group.cc lines 433-456: GetDesiredNumAwakeWorkersLockRequired.
The subtraction num_running_tasks_ - num_running_best_effort_tasks_ matches
the size_t arithmetic under the documented invariant
num_running_best_effort_tasks <= num_running_tasks. -/
def GetDesiredNumAwakeWorkersLockRequired (env : SchedulerEnv)
    (s : ThreadGroupState) : Nat :=
  let num_running_or_queued_can_run_best_effort_task_sources :=
    s.num_running_best_effort_tasks +
      GetNumAdditionalWorkersForBestEffortTaskSourcesLockRequired env
        s.priority_queue
  let workers_for_best_effort_task_sources :=
    max (min num_running_or_queued_can_run_best_effort_task_sources
          s.max_best_effort_tasks)
      s.num_running_best_effort_tasks
  let num_running_or_queued_foreground_task_sources :=
    (s.num_running_tasks - s.num_running_best_effort_tasks) +
      GetNumAdditionalWorkersForForegroundTaskSourcesLockRequired env
        s.priority_queue
  let workers_for_foreground_task_sources :=
    num_running_or_queued_foreground_task_sources
  min (min (workers_for_best_effort_task_sources +
        workers_for_foreground_task_sources)
      s.max_tasks)
    kMaxNumberOfWorkers

/-- From thread_group.cc lines 470-495:
ShouldPeriodicallyAdjustMaxTasksLockRequired, with kIdleWorker = 1
(line 492). -/
def ShouldPeriodicallyAdjustMaxTasksLockRequired (env : SchedulerEnv)
    (s : ThreadGroupState) : Bool :=
  let num_running_or_queued_best_effort_task_sources :=
    s.num_running_best_effort_tasks +
      GetNumAdditionalWorkersForBestEffortTaskSourcesLockRequired env
        s.priority_queue
  if s.max_best_effort_tasks < num_running_or_queued_best_effort_task_sources ∧
      0 < s.num_unresolved_best_effort_may_block then true
  else
    let num_running_or_queued_task_sources :=
      s.num_running_tasks +
        GetNumAdditionalWorkersForBestEffortTaskSourcesLockRequired env
          s.priority_queue +
        GetNumAdditionalWorkersForForegroundTaskSourcesLockRequired env
          s.priority_queue
    let kIdleWorker : Nat := 1
    decide (s.max_tasks < num_running_or_queued_task_sources + kIdleWorker ∧
      0 < s.num_unresolved_may_block)

/-- From thread_group.cc lines 497-505: UpdateMinAllowedPriorityLockRequired
stores kMaxYieldSortKey when the queue is empty or
num_running_tasks_ < max_tasks_, and the top entry's
(priority, worker_count) otherwise. -/
def UpdateMinAllowedPriorityLockRequired (s : ThreadGroupState) :
    ThreadGroupState :=
  if s.priority_queue.IsEmpty = true ∨ s.num_running_tasks < s.max_tasks then
    { s with max_allowed_sort_key := kMaxYieldSortKey }
  else
    { s with max_allowed_sort_key :=
        ⟨s.priority_queue.PeekSortKey.priority,
         s.priority_queue.PeekSortKey.worker_count⟩ }

/-- From thread_group.cc lines 507-515: DecrementTasksRunningLockRequired.
The DCHECKs (num_running_tasks_ > 0, and num_running_best_effort_tasks_ > 0
when the priority is BEST_EFFORT) are preconditions; under them the Nat
subtraction agrees with size_t. -/
def DecrementTasksRunningLockRequired (s : ThreadGroupState)
    (priority : TaskPriority) : ThreadGroupState :=
  let s1 := { s with num_running_tasks := s.num_running_tasks - 1 }
  let s2 :=
    if priority = TaskPriority.BEST_EFFORT then
      { s1 with num_running_best_effort_tasks :=
          s1.num_running_best_effort_tasks - 1 }
    else s1
  UpdateMinAllowedPriorityLockRequired s2

/-- From thread_group.cc lines 517-527: IncrementTasksRunningLockRequired. -/
def IncrementTasksRunningLockRequired (s : ThreadGroupState)
    (priority : TaskPriority) : ThreadGroupState :=
  let s1 := { s with num_running_tasks := s.num_running_tasks + 1 }
  let s2 :=
    if priority = TaskPriority.BEST_EFFORT then
      { s1 with num_running_best_effort_tasks :=
          s1.num_running_best_effort_tasks + 1 }
    else s1
  UpdateMinAllowedPriorityLockRequired s2

/-- From thread_group.cc lines 529-534: DecrementMaxTasksLockRequired (DCHECK
preconditions num_running_tasks_ > 0 and max_tasks_ > 0). -/
def DecrementMaxTasksLockRequired (s : ThreadGroupState) : ThreadGroupState :=
  UpdateMinAllowedPriorityLockRequired { s with max_tasks := s.max_tasks - 1 }

/-- From thread_group.cc lines 536-540: IncrementMaxTasksLockRequired
increments max_tasks_ unconditionally (DCHECK precondition
num_running_tasks_ > 0; there is no upper-bound check). -/
def IncrementMaxTasksLockRequired (s : ThreadGroupState) : ThreadGroupState :=
  UpdateMinAllowedPriorityLockRequired { s with max_tasks := s.max_tasks + 1 }

/-- From thread_group.cc lines 542-547: DecrementMaxBestEffortTasksLockRequired. -/
def DecrementMaxBestEffortTasksLockRequired (s : ThreadGroupState) :
    ThreadGroupState :=
  UpdateMinAllowedPriorityLockRequired
    { s with max_best_effort_tasks := s.max_best_effort_tasks - 1 }

/-- From thread_group.cc lines 549-553: IncrementMaxBestEffortTasksLockRequired. -/
def IncrementMaxBestEffortTasksLockRequired (s : ThreadGroupState) :
    ThreadGroupState :=
  UpdateMinAllowedPriorityLockRequired
    { s with max_best_effort_tasks := s.max_best_effort_tasks + 1 }

/-- From thread_group.cc lines 108-146: the state effect of Start under the
lock is to set max_tasks_ and max_best_effort_tasks_ (lines 133, 137).  The
DCHECKs at lines 134 and 136 (max_tasks_ >= 1 and
initial_max_tasks <= kMaxNumberOfWorkers, where initial_max_tasks is set to
max_tasks_) are preconditions.  The timing, feature and environment fields
set by Start are not part of the state the claims touch. -/
def ThreadGroupStart (s : ThreadGroupState)
    (max_tasks max_best_effort_tasks : Nat) : ThreadGroupState :=
  { s with max_tasks := max_tasks,
           max_best_effort_tasks := max_best_effort_tasks }

theorem updateMin_priority_queue (s : ThreadGroupState) :
    (UpdateMinAllowedPriorityLockRequired s).priority_queue =
      s.priority_queue := by
  unfold UpdateMinAllowedPriorityLockRequired
  split <;> rfl

theorem updateMin_num_running_tasks (s : ThreadGroupState) :
    (UpdateMinAllowedPriorityLockRequired s).num_running_tasks =
      s.num_running_tasks := by
  unfold UpdateMinAllowedPriorityLockRequired
  split <;> rfl

theorem updateMin_num_running_best_effort_tasks (s : ThreadGroupState) :
    (UpdateMinAllowedPriorityLockRequired s).num_running_best_effort_tasks =
      s.num_running_best_effort_tasks := by
  unfold UpdateMinAllowedPriorityLockRequired
  split <;> rfl

theorem updateMin_max_tasks (s : ThreadGroupState) :
    (UpdateMinAllowedPriorityLockRequired s).max_tasks = s.max_tasks := by
  unfold UpdateMinAllowedPriorityLockRequired
  split <;> rfl

theorem updateMin_max_best_effort_tasks (s : ThreadGroupState) :
    (UpdateMinAllowedPriorityLockRequired s).max_best_effort_tasks =
      s.max_best_effort_tasks := by
  unfold UpdateMinAllowedPriorityLockRequired
  split <;> rfl

/-- C5: with the queue holding three USER_BLOCKING task sources with worker
counts 0, 0, 1 and one BEST_EFFORT task source with worker count 0, no task
running, max_tasks = 2, max_best_effort_tasks = 1 and a tracker that allows
every priority, GetDesiredNumAwakeWorkersLockRequired returns exactly 2,
for every remaining-concurrency assignment and any values of the remaining
collaborator functions. -/
theorem getDesiredNumAwakeWorkers_scenario
    (register : TaskSource → Bool) (willRun : TaskSource → RunStatus)
    (getKey : TaskSource → TaskSourceSortKey) (remConc : TaskSource → Nat) :
    GetDesiredNumAwakeWorkersLockRequired
        ⟨fun _ => true, register, willRun, getKey, remConc⟩
        ⟨[⟨⟨1⟩, ⟨.USER_BLOCKING, 0⟩⟩, ⟨⟨2⟩, ⟨.USER_BLOCKING, 0⟩⟩,
          ⟨⟨3⟩, ⟨.USER_BLOCKING, 1⟩⟩, ⟨⟨4⟩, ⟨.BEST_EFFORT, 0⟩⟩],
         2, 1, 0, 0, 0, 0, kMaxYieldSortKey⟩ = 2 := by
  simp [GetDesiredNumAwakeWorkersLockRequired,
    GetNumAdditionalWorkersForBestEffortTaskSourcesLockRequired,
    GetNumAdditionalWorkersForForegroundTaskSourcesLockRequired,
    PriorityQueue.GetNumTaskSourcesWithPriority, PriorityQueue.PeekSortKey,
    PriorityQueue.PeekTaskSource, List.countP, List.countP.go,
    TaskPriority.HIGHEST, kMaxNumberOfWorkers]
  omega

/-- C6: ShouldPeriodicallyAdjustMaxTasksLockRequired returns true exactly
when demand exceeds a current concurrency limit AND the corresponding
unresolved may-block counter is positive: either the running-or-queued
best-effort task sources exceed max_best_effort_tasks with an unresolved
best-effort may-block outstanding, or the running-or-queued task sources
plus one idle worker exceed max_tasks with an unresolved may-block
outstanding.  In particular it returns false whenever neither demand bound
is exceeded, however many may-block declarations are outstanding. -/
theorem shouldPeriodicallyAdjustMaxTasks_characterization
    (env : SchedulerEnv) (s : ThreadGroupState) :
    ShouldPeriodicallyAdjustMaxTasksLockRequired env s = true ↔
      ((s.max_best_effort_tasks <
          s.num_running_best_effort_tasks +
            GetNumAdditionalWorkersForBestEffortTaskSourcesLockRequired env
              s.priority_queue ∧
        0 < s.num_unresolved_best_effort_may_block) ∨
       (s.max_tasks <
          s.num_running_tasks +
            GetNumAdditionalWorkersForBestEffortTaskSourcesLockRequired env
              s.priority_queue +
            GetNumAdditionalWorkersForForegroundTaskSourcesLockRequired env
              s.priority_queue + 1 ∧
        0 < s.num_unresolved_may_block)) := by
  unfold ShouldPeriodicallyAdjustMaxTasksLockRequired
  by_cases h1 : s.max_best_effort_tasks <
      s.num_running_best_effort_tasks +
        GetNumAdditionalWorkersForBestEffortTaskSourcesLockRequired env
          s.priority_queue ∧
      0 < s.num_unresolved_best_effort_may_block
  · simp [h1]
  · simp [h1]

/-- C7: the invariant num_running_best_effort_tasks <= num_running_tasks and
num_running_best_effort_tasks <= max_best_effort_tasks is preserved by
IncrementTasksRunningLockRequired and DecrementTasksRunningLockRequired
under their preconditions: capacity exists to increment (num_running_tasks
below max_tasks, and for BEST_EFFORT the best-effort ceiling not yet
reached), and a running task of the given priority exists to decrement. -/
theorem tasksRunning_counters_invariant
    (s : ThreadGroupState) (priority : TaskPriority)
    (hinv1 : s.num_running_best_effort_tasks ≤ s.num_running_tasks)
    (hinv2 : s.num_running_best_effort_tasks ≤ s.max_best_effort_tasks)
    (hinc_cap : s.num_running_tasks < s.max_tasks)
    (hinc_be : priority = TaskPriority.BEST_EFFORT →
      s.num_running_best_effort_tasks < s.max_best_effort_tasks)
    (hdec_run : 0 < s.num_running_tasks)
    (hdec_be : priority = TaskPriority.BEST_EFFORT →
      0 < s.num_running_best_effort_tasks)
    (hdec_fg : priority ≠ TaskPriority.BEST_EFFORT →
      s.num_running_best_effort_tasks < s.num_running_tasks) :
    ((IncrementTasksRunningLockRequired s priority).num_running_best_effort_tasks ≤
        (IncrementTasksRunningLockRequired s priority).num_running_tasks ∧
      (IncrementTasksRunningLockRequired s priority).num_running_best_effort_tasks ≤
        (IncrementTasksRunningLockRequired s priority).max_best_effort_tasks) ∧
    ((DecrementTasksRunningLockRequired s priority).num_running_best_effort_tasks ≤
        (DecrementTasksRunningLockRequired s priority).num_running_tasks ∧
      (DecrementTasksRunningLockRequired s priority).num_running_best_effort_tasks ≤
        (DecrementTasksRunningLockRequired s priority).max_best_effort_tasks) := by
  by_cases hbe : priority = TaskPriority.BEST_EFFORT
  · have h1 := hinc_be hbe
    have h2 := hdec_be hbe
    simp [IncrementTasksRunningLockRequired, DecrementTasksRunningLockRequired,
      hbe, updateMin_num_running_tasks,
      updateMin_num_running_best_effort_tasks, updateMin_max_best_effort_tasks]
    omega
  · have h3 := hdec_fg hbe
    simp [IncrementTasksRunningLockRequired, DecrementTasksRunningLockRequired,
      hbe, updateMin_num_running_tasks,
      updateMin_num_running_best_effort_tasks, updateMin_max_best_effort_tasks]
    omega

/-- C7 witness: the invariant-preservation theorem at a concrete state with
one USER_BLOCKING task running, max_tasks = 2 and
max_best_effort_tasks = 1. -/
theorem tasksRunning_counters_invariant_witness :
    ((IncrementTasksRunningLockRequired
        ⟨[], 2, 1, 1, 0, 0, 0, kMaxYieldSortKey⟩
        .USER_BLOCKING).num_running_best_effort_tasks ≤
      (IncrementTasksRunningLockRequired
        ⟨[], 2, 1, 1, 0, 0, 0, kMaxYieldSortKey⟩
        .USER_BLOCKING).num_running_tasks ∧
      (IncrementTasksRunningLockRequired
        ⟨[], 2, 1, 1, 0, 0, 0, kMaxYieldSortKey⟩
        .USER_BLOCKING).num_running_best_effort_tasks ≤
      (IncrementTasksRunningLockRequired
        ⟨[], 2, 1, 1, 0, 0, 0, kMaxYieldSortKey⟩
        .USER_BLOCKING).max_best_effort_tasks) ∧
    ((DecrementTasksRunningLockRequired
        ⟨[], 2, 1, 1, 0, 0, 0, kMaxYieldSortKey⟩
        .USER_BLOCKING).num_running_best_effort_tasks ≤
      (DecrementTasksRunningLockRequired
        ⟨[], 2, 1, 1, 0, 0, 0, kMaxYieldSortKey⟩
        .USER_BLOCKING).num_running_tasks ∧
      (DecrementTasksRunningLockRequired
        ⟨[], 2, 1, 1, 0, 0, 0, kMaxYieldSortKey⟩
        .USER_BLOCKING).num_running_best_effort_tasks ≤
      (DecrementTasksRunningLockRequired
        ⟨[], 2, 1, 1, 0, 0, 0, kMaxYieldSortKey⟩
        .USER_BLOCKING).max_best_effort_tasks) :=
  tasksRunning_counters_invariant ⟨[], 2, 1, 1, 0, 0, 0, kMaxYieldSortKey⟩
    .USER_BLOCKING (by decide) (by decide) (by decide) (by decide) (by decide)
    (by decide) (by decide)

/-- A state reachable right after Start with max_tasks at the hard cap
kMaxNumberOfWorkers = 256 and one task running. -/
def stateAtCap : ThreadGroupState := ⟨[], 256, 10, 1, 0, 0, 0, kMaxYieldSortKey⟩

/-- C8 counterexample: from a state with max_tasks = kMaxNumberOfWorkers and
the DCHECK precondition num_running_tasks > 0 satisfied,
IncrementMaxTasksLockRequired raises max_tasks to 257, above the fixed hard
worker cap — the bound is not preserved by IncrementMaxTasksLockRequired. -/
theorem incrementMaxTasks_exceeds_cap :
    0 < stateAtCap.num_running_tasks ∧
    stateAtCap.max_tasks ≤ kMaxNumberOfWorkers ∧
    (IncrementMaxTasksLockRequired stateAtCap).max_tasks = 257 ∧
    ¬ (IncrementMaxTasksLockRequired stateAtCap).max_tasks ≤
        kMaxNumberOfWorkers := by
  decide

/-- C8 (amended): max_tasks <= kMaxNumberOfWorkers holds after Start (whose
DCHECK preconditions require 1 <= max_tasks <= kMaxNumberOfWorkers) and is
preserved by DecrementMaxTasksLockRequired, but
IncrementMaxTasksLockRequired increments max_tasks unconditionally and so
can exceed the cap; the configuration-independent hard cap is instead
enforced where workers are created: GetDesiredNumAwakeWorkersLockRequired
never exceeds kMaxNumberOfWorkers. -/
theorem maxTasks_cap_amended (env : SchedulerEnv) (s s0 : ThreadGroupState)
    (max_tasks max_best_effort_tasks : Nat)
    (h1 : 1 ≤ max_tasks) (h2 : max_tasks ≤ kMaxNumberOfWorkers) :
    (ThreadGroupStart s0 max_tasks max_best_effort_tasks).max_tasks ≤
      kMaxNumberOfWorkers ∧
    (s.max_tasks ≤ kMaxNumberOfWorkers →
      (DecrementMaxTasksLockRequired s).max_tasks ≤ kMaxNumberOfWorkers) ∧
    GetDesiredNumAwakeWorkersLockRequired env s ≤ kMaxNumberOfWorkers ∧
    (IncrementMaxTasksLockRequired s).max_tasks = s.max_tasks + 1 := by
  refine ⟨h2, ?_, ?_, ?_⟩
  · intro hcap
    simp [DecrementMaxTasksLockRequired, updateMin_max_tasks]
    omega
  · exact min_le_right _ _
  · simp [IncrementMaxTasksLockRequired, updateMin_max_tasks]

/-- C8 (amended) witness: the amended cap theorem at a concrete state and a
Start call with max_tasks = 256. -/
theorem maxTasks_cap_amended_witness :
    (ThreadGroupStart ⟨[], 1, 0, 0, 0, 0, 0, kMaxYieldSortKey⟩ 256
        4).max_tasks ≤ kMaxNumberOfWorkers ∧
    ((⟨[], 1, 0, 0, 0, 0, 0, kMaxYieldSortKey⟩ :
          ThreadGroupState).max_tasks ≤ kMaxNumberOfWorkers →
      (DecrementMaxTasksLockRequired
          ⟨[], 1, 0, 0, 0, 0, 0, kMaxYieldSortKey⟩).max_tasks ≤
        kMaxNumberOfWorkers) ∧
    GetDesiredNumAwakeWorkersLockRequired
        ⟨fun _ => true, fun _ => true, fun _ => RunStatus.kAllowedSaturated,
         fun _ => ⟨.BEST_EFFORT, 0⟩, fun _ => 0⟩
        ⟨[], 1, 0, 0, 0, 0, 0, kMaxYieldSortKey⟩ ≤ kMaxNumberOfWorkers ∧
    (IncrementMaxTasksLockRequired
        ⟨[], 1, 0, 0, 0, 0, 0, kMaxYieldSortKey⟩).max_tasks =
      (⟨[], 1, 0, 0, 0, 0, 0, kMaxYieldSortKey⟩ :
          ThreadGroupState).max_tasks + 1 :=
  maxTasks_cap_amended
    ⟨fun _ => true, fun _ => true, fun _ => RunStatus.kAllowedSaturated,
     fun _ => ⟨.BEST_EFFORT, 0⟩, fun _ => 0⟩
    ⟨[], 1, 0, 0, 0, 0, 0, kMaxYieldSortKey⟩
    ⟨[], 1, 0, 0, 0, 0, 0, kMaxYieldSortKey⟩ 256 4 (by decide) (by decide)

/-- The relation the published lock-free snapshot satisfies after
UpdateMinAllowedPriorityLockRequired ran on a state: the sentinel when the
queue is empty or the group is not saturated, and the top entry's
(priority, worker_count) otherwise. -/
def PublishedKeyCorrect (s : ThreadGroupState) : Prop :=
  s.max_allowed_sort_key =
    if s.priority_queue.IsEmpty = true ∨ s.num_running_tasks < s.max_tasks
    then kMaxYieldSortKey
    else ⟨s.priority_queue.PeekSortKey.priority,
          s.priority_queue.PeekSortKey.worker_count⟩

theorem publishedKeyCorrect_update (s : ThreadGroupState) :
    PublishedKeyCorrect (UpdateMinAllowedPriorityLockRequired s) := by
  unfold PublishedKeyCorrect UpdateMinAllowedPriorityLockRequired
  by_cases h : s.priority_queue.IsEmpty = true ∨
      s.num_running_tasks < s.max_tasks
  · simp [h]
  · simp [h]

/-- C10: after every operation that updates the running-task counters or the
concurrency ceilings, the published max_allowed_sort_key equals
kMaxYieldSortKey whenever the queue is empty or
num_running_tasks < max_tasks, and otherwise equals the
(priority, worker_count) of the queue's top entry. -/
theorem published_sort_key_after_updates (s : ThreadGroupState)
    (priority : TaskPriority) :
    PublishedKeyCorrect (IncrementTasksRunningLockRequired s priority) ∧
    PublishedKeyCorrect (DecrementTasksRunningLockRequired s priority) ∧
    PublishedKeyCorrect (IncrementMaxTasksLockRequired s) ∧
    PublishedKeyCorrect (DecrementMaxTasksLockRequired s) ∧
    PublishedKeyCorrect (IncrementMaxBestEffortTasksLockRequired s) ∧
    PublishedKeyCorrect (DecrementMaxBestEffortTasksLockRequired s) := by
  unfold IncrementTasksRunningLockRequired DecrementTasksRunningLockRequired
    IncrementMaxTasksLockRequired DecrementMaxTasksLockRequired
    IncrementMaxBestEffortTasksLockRequired
    DecrementMaxBestEffortTasksLockRequired
  exact ⟨publishedKeyCorrect_update _, publishedKeyCorrect_update _,
    publishedKeyCorrect_update _, publishedKeyCorrect_update _,
    publishedKeyCorrect_update _, publishedKeyCorrect_update _⟩
